import Mathlib

/-!
Verification of `ci_scripts/get_version.py`: a CI helper that reads the
`version` value from the `[package]` section of a manifest file with
Python's `configparser`, strips the first and last character of the raw
value (`version[1:-1]`), and prints the result.

The embedding models:
* the filesystem as a partial map from paths to file contents;
* the line format accepted by `configparser.ConfigParser` (default
  configuration): blank lines and full-line `#`/`;` comments, section
  headers matched by the greedy stdlib regex (header runs to the last
  `]` of the stripped line), `key = value` / `key : value` options with
  the key lowercased (`optionxform`) and the value whitespace-stripped,
  continuation lines (an indented line inside an option is appended to
  its value, blank lines inside an option contribute empty value lines,
  values joined with newlines and right-stripped at the end of the
  read), the special `DEFAULT` section collected separately, duplicate
  sections and options rejected (`strict=True` default), a non-header
  line before any section a `MissingSectionHeaderError`, and any other
  line a `ParsingError`;
* `ConfigParser.read`, which silently skips a path that cannot be
  opened and leaves the parser empty;
* value retrieval `config["package"]["version"]`: the section lookup
  consults only real sections (`KeyError` if `package` is absent, even
  when a `DEFAULT` section exists), the option lookup falls back to the
  `DEFAULT` section, and the retrieved value goes through
  `BasicInterpolation`: `%%` collapses to `%`, `%(name)s` is replaced
  by the referenced raw value (recursively, with the stdlib depth limit
  of 10), and any other use of `%` raises an interpolation error;
* exceptions as `Except` values and the process outcome as a
  stdout/exit-code pair (an uncaught exception exits with status 1 and
  writes nothing to stdout).
-/

/-- Module-level constant `CONFIG_FILE = "Cargo.toml"` (line 5). -/
def CONFIG_FILE : String := "Cargo.toml"

/-- A filesystem state: maps a path to the content of a readable file,
or to `none` when the path does not denote a readable file. -/
abbrev FS : Type := String → Option String

/-- Errors raised by `configparser` while parsing file content. -/
inductive ParseErr where
  | missingSectionHeader
  | parsingError
  | duplicateSection
  | duplicateOption
deriving DecidableEq

/-- Uncaught Python exceptions the script can raise: a parse failure
from `configparser`, a `KeyError` from `config["package"]["version"]`,
or a `BasicInterpolation` error while the value is retrieved. -/
inductive PyErr where
  | parse (e : ParseErr)
  | keyNotFound (key : String)
  | interpolationSyntaxError
  | interpolationMissingOption (var : String)
  | interpolationDepthError
deriving DecidableEq

/-- A parsed configuration: the options of the special `DEFAULT`
section, and the real sections in file order, each a name with its
options (key/value pairs in file order, values already joined). -/
structure Config where
  defaults : List (String × String)
  sections : List (String × List (String × String))
deriving DecidableEq

/-- Python `str.strip` whitespace characters. -/
def isPyWs (c : Char) : Bool :=
  c = ' ' || c = '\t' || c = '\n' || c = '\r' || c = '\x0b' || c = '\x0c'

/-- Strip leading and trailing whitespace from a character list. -/
def trimChars (l : List Char) : List Char :=
  ((l.dropWhile isPyWs).reverse.dropWhile isPyWs).reverse

/-- Strip trailing whitespace from a character list (Python `rstrip`). -/
def rstripChars (l : List Char) : List Char :=
  (l.reverse.dropWhile isPyWs).reverse

/-- Split file content into lines at newline characters. -/
def splitLinesAux : List Char → List Char → List (List Char)
  | [], acc => [acc.reverse]
  | c :: cs, acc =>
    if c = '\n' then acc.reverse :: splitLinesAux cs []
    else splitLinesAux cs (c :: acc)

/-- The stdlib section-header regex applied to a stripped line: the
pattern is greedy, so the header runs from after the opening `[` to the
last `]` of the line and must be non-empty; text after that `]` is
ignored by `re.match`. -/
def sectionHeaderChars : List Char → Option (List Char)
  | '[' :: rest =>
    match rest.reverse.dropWhile (fun c => c ≠ ']') with
    | [] => none
    | _ :: revHdr => if revHdr.isEmpty then none else some revHdr.reverse
  | _ => none

/-- Split a line at the first `=` or `:` delimiter, as the non-greedy
stdlib option regex does: returns the text before and after it. -/
def splitDelimChars : List Char → Option (List Char × List Char)
  | [] => none
  | c :: cs =>
    if c = '=' || c = ':' then some ([], cs)
    else
      match splitDelimChars cs with
      | some (k, rest) => some (c :: k, rest)
      | none => none

/-- During the read, each option holds its list of value lines (the
first from the option line itself, the rest from continuations and
interior blank lines). -/
abbrev RawOpts : Type := List (String × List String)

/-- Append one more value line to the named option. -/
def appendToOpt (opts : RawOpts) (k : String) (x : String) : RawOpts :=
  opts.map (fun kv => if kv.1 == k then (kv.1, kv.2 ++ [x]) else kv)

/-- Append the section under construction to the finished sections. -/
def flushCur (done : List (String × RawOpts)) :
    Option (String × RawOpts) → List (String × RawOpts)
  | none => done
  | some sct => done ++ [sct]

/-- The `configparser` read loop.  Arguments after the lines: the
`DEFAULT` options so far, the finished sections, the current real
section (none while inside `DEFAULT` or before any header), whether the
current section is `DEFAULT`, the last option key (continuation
target), and the indentation of the last header/option line. -/
def parseLines :
    List (List Char) → RawOpts → List (String × RawOpts) →
    Option (String × RawOpts) → Bool → Option String → Nat →
    Except ParseErr (RawOpts × List (String × RawOpts))
  | [], defaults, done, cur, _, _, _ => Except.ok (defaults, flushCur done cur)
  | l :: ls, defaults, done, cur, inDefault, optname, indentLevel =>
    match trimChars l with
    | [] =>
      match optname with
      | some k =>
        if inDefault then
          parseLines ls (appendToOpt defaults k "") done cur inDefault optname indentLevel
        else
          match cur with
          | some (nm, opts) =>
            parseLines ls defaults done (some (nm, appendToOpt opts k ""))
              inDefault optname indentLevel
          | none => parseLines ls defaults done cur inDefault optname indentLevel
      | none => parseLines ls defaults done cur inDefault optname indentLevel
    | c :: cs' =>
      if c = '#' || c = ';' then
        parseLines ls defaults done cur inDefault optname indentLevel
      else
        let s := c :: cs'
        let curIndent := (l.takeWhile isPyWs).length
        let isCont : Bool :=
          (inDefault || cur.isSome) && optname.isSome &&
            decide (indentLevel < curIndent)
        if isCont then
          match optname with
          | some k =>
            if inDefault then
              parseLines ls (appendToOpt defaults k (String.mk s)) done cur
                inDefault optname indentLevel
            else
              match cur with
              | some (nm, opts) =>
                parseLines ls defaults done
                  (some (nm, appendToOpt opts k (String.mk s)))
                  inDefault optname indentLevel
              | none =>
                parseLines ls defaults done cur inDefault optname indentLevel
          | none => parseLines ls defaults done cur inDefault optname indentLevel
        else
          match sectionHeaderChars s with
          | some hdr =>
            let name := String.mk hdr
            let done2 := flushCur done cur
            if name == "DEFAULT" then
              parseLines ls defaults done2 none true none curIndent
            else if done2.any (fun sct => sct.1 == name) then
              Except.error ParseErr.duplicateSection
            else
              parseLines ls defaults done2 (some (name, [])) false none curIndent
          | none =>
            if !inDefault && cur.isNone then
              Except.error ParseErr.missingSectionHeader
            else
              match splitDelimChars s with
              | none => Except.error ParseErr.parsingError
              | some (k, v) =>
                let key := String.mk ((trimChars k).map Char.toLower)
                let val := String.mk (trimChars v)
                if key = "" then Except.error ParseErr.parsingError
                else if inDefault then
                  if defaults.any (fun kv => kv.1 == key) then
                    Except.error ParseErr.duplicateOption
                  else
                    parseLines ls (defaults ++ [(key, [val])]) done cur
                      inDefault (some key) curIndent
                else
                  match cur with
                  | some (nm, opts) =>
                    if opts.any (fun kv => kv.1 == key) then
                      Except.error ParseErr.duplicateOption
                    else
                      parseLines ls defaults done
                        (some (nm, opts ++ [(key, [val])]))
                        inDefault (some key) curIndent
                  | none => Except.error ParseErr.missingSectionHeader

/-- Join the collected value lines of one option with newlines and
right-strip, as `_join_multiline_values` does at the end of the read. -/
def joinLinesChars : List String → List Char
  | [] => []
  | [l] => l.data
  | l :: ls => l.data ++ '\n' :: joinLinesChars ls

/-- The final value of one option. -/
def joinValue (lines : List String) : String :=
  String.mk (rstripChars (joinLinesChars lines))

/-- Join all options of one section. -/
def joinOpts (opts : RawOpts) : List (String × String) :=
  opts.map (fun kv => (kv.1, joinValue kv.2))

/-- Parse a whole file content as `configparser` does. -/
def parseConfig (content : String) : Except ParseErr Config :=
  match parseLines (splitLinesAux content.data []) [] [] none false none 0 with
  | Except.error e => Except.error e
  | Except.ok (defs, sects) =>
    Except.ok { defaults := joinOpts defs,
                sections := sects.map (fun sct => (sct.1, joinOpts sct.2)) }

/-- `ConfigParser.read(path)`: a path that does not denote a readable
file is silently skipped, leaving the parser empty; otherwise the file
content is parsed. -/
def configRead (fs : FS) (path : String) : Except ParseErr Config :=
  match fs path with
  | none => Except.ok { defaults := [], sections := [] }
  | some content => parseConfig content

/-- `config[name]` for a real section name: only the real sections are
consulted — a present `DEFAULT` section does not make `config["package"]`
succeed when `[package]` is absent. -/
def cfgLookupSection (cfg : Config) (name : String) :
    Option (List (String × String)) :=
  match cfg.sections.find? (fun sct => sct.1 == name) with
  | some sct => some sct.2
  | none => none

/-- Option lookup inside a section proxy: the section's own options
first, then the `DEFAULT` section's (the `ChainMap` of `parser.get`). -/
def chainLookup (opts defaults : List (String × String)) (k : String) :
    Option String :=
  match opts.find? (fun kv => kv.1 == k) with
  | some kv => some kv.2
  | none =>
    match defaults.find? (fun kv => kv.1 == k) with
    | some kv => some kv.2
    | none => none

/-- Scanner state of `BasicInterpolation._interpolate_some`, read left
to right: ordinary text, just after `%`, inside the `%(name` part
(name characters collected in reverse), or just after `%(name)` waiting
for the final `s`. -/
inductive IMode where
  | normal
  | afterPct
  | inVar (acc : List Char)
  | afterParen (acc : List Char)

/-- One left-to-right pass of `BasicInterpolation` over a raw value:
`%%` emits `%`, `%(name)s` substitutes the referenced raw value (the
`nested` argument re-interpolates it when it contains `%`, as the
stdlib recursion does), any other `%` use is an
`InterpolationSyntaxError`, an unknown reference an
`InterpolationMissingOptionError`. -/
def interpScan (lookup : String → Option String)
    (nested : List Char → Except PyErr (List Char)) :
    List Char → IMode → Except PyErr (List Char)
  | [], IMode.normal => Except.ok []
  | [], _ => Except.error PyErr.interpolationSyntaxError
  | c :: rest, IMode.normal =>
    if c = '%' then interpScan lookup nested rest IMode.afterPct
    else
      match interpScan lookup nested rest IMode.normal with
      | Except.error e => Except.error e
      | Except.ok t => Except.ok (c :: t)
  | c :: rest, IMode.afterPct =>
    if c = '%' then
      match interpScan lookup nested rest IMode.normal with
      | Except.error e => Except.error e
      | Except.ok t => Except.ok ('%' :: t)
    else if c = '(' then interpScan lookup nested rest (IMode.inVar [])
    else Except.error PyErr.interpolationSyntaxError
  | c :: rest, IMode.inVar acc =>
    if c = ')' then
      if acc.isEmpty then Except.error PyErr.interpolationSyntaxError
      else interpScan lookup nested rest (IMode.afterParen acc)
    else interpScan lookup nested rest (IMode.inVar (c :: acc))
  | c :: rest, IMode.afterParen acc =>
    if c = 's' then
      let var := String.mk ((acc.reverse).map Char.toLower)
      match lookup var with
      | none => Except.error (PyErr.interpolationMissingOption var)
      | some v =>
        if v.data.contains '%' then
          match nested v.data with
          | Except.error e => Except.error e
          | Except.ok vt =>
            match interpScan lookup nested rest IMode.normal with
            | Except.error e => Except.error e
            | Except.ok t => Except.ok (vt ++ t)
        else
          match interpScan lookup nested rest IMode.normal with
          | Except.error e => Except.error e
          | Except.ok t => Except.ok (v.data ++ t)
    else Except.error PyErr.interpolationSyntaxError

/-- Depth-limited interpolation: each nested substitution consumes one
unit of fuel; exhausting it is the stdlib `InterpolationDepthError`
(`MAX_INTERPOLATION_DEPTH = 10` entries allowed, so the top-level call
starts with fuel 10). -/
def interpolateDepth (lookup : String → Option String) :
    Nat → List Char → Except PyErr (List Char)
  | 0, _ => Except.error PyErr.interpolationDepthError
  | fuel + 1, cs =>
    interpScan lookup (fun v => interpolateDepth lookup fuel v) cs IMode.normal

/-- `BasicInterpolation.before_get` applied to a retrieved raw value. -/
def interpolateValue (lookup : String → Option String) (v : String) :
    Except PyErr String :=
  match interpolateDepth lookup 10 v.data with
  | Except.error e => Except.error e
  | Except.ok cs => Except.ok (String.mk cs)

/-- `get_version` (lines 8-16): builds a parser, calls
`config.read(CONFIG_FILE)` — the module constant, not the
`config_file` parameter — and returns `config["package"]["version"]`.
A missing `package` section raises `KeyError`; the `version` option is
looked up in `package` with fallback to `DEFAULT`, raising `KeyError`
when absent from both; the retrieved value passes through
`BasicInterpolation`. -/
def get_version (fs : FS) (config_file : String) : Except PyErr String :=
  match configRead fs CONFIG_FILE with
  | Except.error e => Except.error (PyErr.parse e)
  | Except.ok cfg =>
    match cfgLookupSection cfg "package" with
    | none => Except.error (PyErr.keyNotFound "package")
    | some opts =>
      match chainLookup opts cfg.defaults "version" with
      | none => Except.error (PyErr.keyNotFound "version")
      | some raw => interpolateValue (chainLookup opts cfg.defaults) raw

/-- Python `version[1:-1]` (line 29): characters from index 1 up to but
not including the last; the empty string when the input has fewer than
two characters. -/
def stripFirstLast (s : String) : String :=
  String.mk ((s.data.drop 1).dropLast)

/-- Observable outcome of one process invocation: everything written to
standard output, and the exit status. -/
structure RunResult where
  stdout : String
  exitCode : Nat
deriving DecidableEq

/-- The `__main__` block (lines 19-30): pick `sys.argv[1]` when present,
else the default; an uncaught exception exits 1 with no stdout; on
success print the sliced value followed by a newline and exit 0. -/
def runMain (fs : FS) (argv : List String) : RunResult :=
  let result :=
    if argv.length > 1 then get_version fs (argv.getD 1 "")
    else get_version fs CONFIG_FILE
  match result with
  | Except.error _ => { stdout := "", exitCode := 1 }
  | Except.ok version => { stdout := stripFirstLast version ++ "\n", exitCode := 0 }

/-- Whether `config["package"]["version"]` finds a raw value: the
`package` section must exist, and `version` must be in it or in
`DEFAULT` (the fallback the real option lookup performs). -/
def lookupVersion (cfg : Config) : Option String :=
  match cfgLookupSection cfg "package" with
  | none => none
  | some opts => chainLookup opts cfg.defaults "version"

/-- Fixture: working directory holds a `Cargo.toml` with version
`"9.9.9"` and an `other.toml` with version `"0.0.1-alpha"`. -/
def fsC1 : FS := fun p =>
  if p == "Cargo.toml" then some "[package]\nversion = \"9.9.9\"\n"
  else if p == "other.toml" then some "[package]\nversion = \"0.0.1-alpha\"\n"
  else none

/-- Fixture: a valid `Cargo.toml` is present; no other path exists. -/
def fsC2 : FS := fun p =>
  if p == "Cargo.toml" then some "[package]\nversion = \"9.9.9\"\n" else none

/-- Fixture: `Cargo.toml` with version `"1.0.0"` (quotes in the file). -/
def fsQuoted : FS := fun p =>
  if p == "Cargo.toml" then some "[package]\nversion = \"1.0.0\"\n" else none

/-- Fixture: `Cargo.toml` whose `version` value contains the `%%`
escape of `BasicInterpolation`. -/
def fsC4x : FS := fun p =>
  if p == "Cargo.toml" then some "[package]\nversion = 1%%0\n" else none

/-- Fixture: `Cargo.toml` whose `[package]` section has no `version`. -/
def fsC7 : FS := fun p =>
  if p == "Cargo.toml" then some "[package]\nname = \"cifra\"\n" else none

/-- Fixture: `Cargo.toml` whose `version` comes only from `DEFAULT`. -/
def fsC7x : FS := fun p =>
  if p == "Cargo.toml" then
    some "[DEFAULT]\nversion = 1.0\n[package]\nname = x\n"
  else none

/-- Fixture: `Cargo.toml` with a malformed line inside a section. -/
def fsC8 : FS := fun p =>
  if p == "Cargo.toml" then some "[package]\nthis line has no delimiter\n" else none

/-- Fixture: `Cargo.toml` whose `version` key has an empty raw value. -/
def fsC10 : FS := fun p =>
  if p == "Cargo.toml" then some "[package]\nversion =\n" else none

/-- Interpolating a value without `%` leaves it unchanged: the scanner
stays in ordinary mode and reproduces every character. -/
theorem interpScan_no_pct (lookup : String → Option String)
    (nested : List Char → Except PyErr (List Char)) :
    ∀ cs : List Char, ('%' : Char) ∉ cs →
    interpScan lookup nested cs IMode.normal = Except.ok cs := by
  intro cs
  induction cs with
  | nil => intro _; rfl
  | cons c rest ih =>
    intro h
    have hc : ¬ c = '%' := by
      intro hceq
      subst hceq
      exact h (List.mem_cons_self _ _)
    have hrest : ('%' : Char) ∉ rest := fun hm => h (List.mem_cons_of_mem c hm)
    rw [interpScan, if_neg hc, ih hrest]

/-- `before_get` on a `%`-free value is the identity. -/
theorem interpolateValue_no_pct (lookup : String → Option String) (v : String)
    (h : ('%' : Char) ∉ v.data) : interpolateValue lookup v = Except.ok v := by
  have h10 : interpolateDepth lookup 10 v.data = Except.ok v.data := by
    have hstep : interpolateDepth lookup 10 v.data =
        interpScan lookup (fun t => interpolateDepth lookup 9 t) v.data
          IMode.normal := rfl
    rw [hstep, interpScan_no_pct lookup _ v.data h]
  simp [interpolateValue, h10]

/-- C1: the claim says the supplied command-line argument determines
which file is read.  The code instead passes `CONFIG_FILE` to
`config.read` (line 15), so the argument is ignored: with `other.toml`
holding version `"0.0.1-alpha"` and the working directory's `Cargo.toml`
holding version `"9.9.9"`, invoking with argument `other.toml` prints
`9.9.9`, not `0.0.1-alpha`.  This evaluates the code at that failing
input. -/
theorem c1_wrong_file_eval :
    runMain fsC1 ["get_version.py", "other.toml"] =
      { stdout := "9.9.9\n", exitCode := 0 } := rfl

/-- C2 counterexample: with a valid `Cargo.toml` in the working
directory, invoking with a path that refers to no file exits 0 and
prints that `Cargo.toml`'s version — not a non-zero exit with empty
stdout as the claim states, and no file-access error occurs. -/
theorem c2_counterexample_eval :
    fsC2 "/nonexistent/path" = none ∧
    runMain fsC2 ["get_version.py", "/nonexistent/path"] =
      { stdout := "9.9.9\n", exitCode := 0 } := ⟨rfl, rfl⟩

/-- C2 amended: `get_version` ignores its path argument and
`ConfigParser.read` silently skips an unreadable file, so no
file-access error is ever raised; when the working directory's
`Cargo.toml` is absent the parser stays empty, the `package` lookup
fails with a `KeyError`, and the process exits non-zero having written
nothing to standard output. -/
theorem c2_no_manifest (fs : FS) (p : String) (argv : List String)
    (h : fs CONFIG_FILE = none) :
    get_version fs p = Except.error (PyErr.keyNotFound "package") ∧
    runMain fs argv = { stdout := "", exitCode := 1 } := by
  have hg : ∀ q : String, get_version fs q =
      Except.error (PyErr.keyNotFound "package") := by
    intro q
    simp [get_version, configRead, h, cfgLookupSection]
  refine ⟨hg p, ?_⟩
  simp [runMain, hg]

/-- C2 witness: a filesystem with no files at all. -/
theorem c2_no_manifest_witness :
    get_version (fun _ => none) "/x" =
      Except.error (PyErr.keyNotFound "package") ∧
    runMain (fun _ => none) ["get_version.py", "/x"] =
      { stdout := "", exitCode := 1 } :=
  c2_no_manifest (fun _ => none) "/x" ["get_version.py", "/x"] rfl

/-- C3: the result of `get_version` is independent of its `config_file`
parameter — the body reads the fixed `CONFIG_FILE`, so in one filesystem
state any two path arguments give the same result. -/
theorem c3_path_independent (fs : FS) (p q : String) :
    get_version fs p = get_version fs q := rfl

/-- C4 counterexample: the manifest `[package]` / `version = 1%%0`
parses successfully, its stored raw `version` value is `1%%0`, yet
`get_version` returns `1%0` — `BasicInterpolation` has rewritten the
value, so it is not returned unmodified as the claim states. -/
theorem c4_counterexample_eval :
    parseConfig "[package]\nversion = 1%%0\n" =
      Except.ok { defaults := [],
                  sections := [("package", [("version", "1%%0")])] } ∧
    get_version fsC4x "Cargo.toml" = Except.ok "1%0" ∧
    ("1%0" : String) ≠ "1%%0" := ⟨rfl, rfl, by decide⟩

/-- C4 amended: when the manifest that is read parses successfully, its
`package` section holds a `version` key, and that key's raw value
contains no `%` character (so `BasicInterpolation` leaves it alone),
`get_version` returns the raw textual value unmodified, surrounding
quote characters included. -/
theorem c4_raw_value (fs : FS) (content : String) (cfg : Config)
    (opts : List (String × String)) (v p : String)
    (hfile : fs CONFIG_FILE = some content)
    (hparse : parseConfig content = Except.ok cfg)
    (hsect : cfgLookupSection cfg "package" = some opts)
    (hkey : opts.find? (fun kv => kv.1 == "version") = some ("version", v))
    (hpct : ('%' : Char) ∉ v.data) :
    get_version fs p = Except.ok v := by
  have hchain : chainLookup opts cfg.defaults "version" = some v := by
    simp [chainLookup, hkey]
  simp [get_version, configRead, hfile, hparse, hsect, hchain,
    interpolateValue_no_pct (chainLookup opts cfg.defaults) v hpct]

/-- C4 witness: the file stores `version = "1.0.0"`; the returned value
is `"1.0.0"` with the quote characters still present. -/
theorem c4_raw_value_witness :
    get_version fsQuoted "whatever.toml" = Except.ok "\"1.0.0\"" :=
  c4_raw_value fsQuoted "[package]\nversion = \"1.0.0\"\n"
    { defaults := [], sections := [("package", [("version", "\"1.0.0\"")])] }
    [("version", "\"1.0.0\"")] "\"1.0.0\"" "whatever.toml"
    rfl rfl rfl rfl (by decide)

/-- C5: when the working directory's `Cargo.toml` parses to a `package`
section whose `version` key has raw value `"1.0.0"` (quotes included),
invoking with no argument prints `1.0.0` followed by a newline and
exits 0. -/
theorem c5_default_invocation (fs : FS) (content : String) (cfg : Config)
    (opts : List (String × String)) (prog : String)
    (hfile : fs CONFIG_FILE = some content)
    (hparse : parseConfig content = Except.ok cfg)
    (hsect : cfgLookupSection cfg "package" = some opts)
    (hkey : opts.find? (fun kv => kv.1 == "version") =
      some ("version", "\"1.0.0\"")) :
    runMain fs [prog] = { stdout := "1.0.0\n", exitCode := 0 } := by
  have hchain : chainLookup opts cfg.defaults "version" = some "\"1.0.0\"" := by
    simp [chainLookup, hkey]
  have hg : get_version fs CONFIG_FILE = Except.ok "\"1.0.0\"" := by
    simp [get_version, configRead, hfile, hparse, hsect, hchain,
      interpolateValue_no_pct (chainLookup opts cfg.defaults) "\"1.0.0\""
        (by decide)]
  simp [runMain, hg]
  rfl

/-- C5 witness: the concrete manifest `[package]` / `version = "1.0.0"`. -/
theorem c5_default_invocation_witness :
    runMain fsQuoted ["get_version.py"] =
      { stdout := "1.0.0\n", exitCode := 0 } :=
  c5_default_invocation fsQuoted "[package]\nversion = \"1.0.0\"\n"
    { defaults := [], sections := [("package", [("version", "\"1.0.0\"")])] }
    [("version", "\"1.0.0\"")] "get_version.py" rfl rfl rfl rfl

/-- C6: whenever `get_version` succeeds with raw value `v`, the program
prints exactly `v` with its first and last characters removed, followed
by a newline, and exits 0 — for any argument list; in particular a value
of two quote characters prints an empty line and the unquoted value
`1.0.0` prints `.0.`. -/
theorem c6_unconditional_strip (fs : FS) (argv : List String) (v : String)
    (h : get_version fs CONFIG_FILE = Except.ok v) :
    runMain fs argv = { stdout := stripFirstLast v ++ "\n", exitCode := 0 } ∧
    stripFirstLast "\"\"" = "" ∧ stripFirstLast "1.0.0" = ".0." := by
  have hg : ∀ q : String, get_version fs q = Except.ok v := fun _ => h
  refine ⟨?_, rfl, rfl⟩
  simp [runMain, hg]

/-- C6 witness: the quoted `1.0.0` manifest under an arbitrary argv. -/
theorem c6_unconditional_strip_witness :
    runMain fsQuoted ["get_version.py", "ignored.toml"] =
      { stdout := stripFirstLast "\"1.0.0\"" ++ "\n", exitCode := 0 } ∧
    stripFirstLast "\"\"" = "" ∧ stripFirstLast "1.0.0" = ".0." :=
  c6_unconditional_strip fsQuoted ["get_version.py", "ignored.toml"]
    "\"1.0.0\"" rfl

/-- C7 counterexample: the manifest `[DEFAULT]` / `version = 1.0` /
`[package]` / `name = x` parses successfully and its `package` section
has no `version` key, yet the `DEFAULT` fallback supplies `1.0`: the
program prints `.` (the sliced `1.0`) and exits 0, not a non-zero exit
with empty stdout as the claim states. -/
theorem c7_counterexample_eval :
    parseConfig "[DEFAULT]\nversion = 1.0\n[package]\nname = x\n" =
      Except.ok { defaults := [("version", "1.0")],
                  sections := [("package", [("name", "x")])] } ∧
    [("name", "x")].find? (fun kv => kv.1 == "version") = none ∧
    runMain fsC7x ["get_version.py"] = { stdout := ".\n", exitCode := 0 } :=
  ⟨rfl, rfl, rfl⟩

/-- C7 amended: when the manifest that is read parses successfully but
the `package` section is absent, or the `version` key is absent from
both the `package` section and the `DEFAULT` section, `get_version`
fails with an uncaught `KeyError` and the process exits non-zero having
written nothing to standard output. -/
theorem c7_missing_key (fs : FS) (content : String) (cfg : Config)
    (p : String) (argv : List String)
    (hfile : fs CONFIG_FILE = some content)
    (hparse : parseConfig content = Except.ok cfg)
    (hmiss : lookupVersion cfg = none) :
    (∃ k, get_version fs p = Except.error (PyErr.keyNotFound k)) ∧
    runMain fs argv = { stdout := "", exitCode := 1 } := by
  have hg : ∀ q : String, ∃ k, get_version fs q =
      Except.error (PyErr.keyNotFound k) := by
    intro q
    cases hsect : cfgLookupSection cfg "package" with
    | none =>
      exact ⟨"package", by simp [get_version, configRead, hfile, hparse, hsect]⟩
    | some opts =>
      cases hk : chainLookup opts cfg.defaults "version" with
      | none =>
        exact ⟨"version",
          by simp [get_version, configRead, hfile, hparse, hsect, hk]⟩
      | some v =>
        exfalso
        simp [lookupVersion, hsect, hk] at hmiss
  refine ⟨hg p, ?_⟩
  obtain ⟨k2, h2⟩ := hg CONFIG_FILE
  have hg2 : ∀ q : String, get_version fs q =
      Except.error (PyErr.keyNotFound k2) := fun _ => h2
  simp [runMain, hg2]

/-- C7 witness: a manifest with a `package` section, no `version` key
and no `DEFAULT` section. -/
theorem c7_missing_key_witness :
    (∃ k, get_version fsC7 "Cargo.toml" =
      Except.error (PyErr.keyNotFound k)) ∧
    runMain fsC7 ["get_version.py"] = { stdout := "", exitCode := 1 } :=
  c7_missing_key fsC7 "[package]\nname = \"cifra\"\n"
    { defaults := [], sections := [("package", [("name", "\"cifra\"")])] }
    "Cargo.toml" ["get_version.py"] rfl rfl rfl

/-- C8: when the content of the file that is read does not conform to
the section/key-value syntax, `get_version` fails with the parse error,
uncaught, and the process exits non-zero with nothing on standard
output. -/
theorem c8_parse_error (fs : FS) (content : String) (e : ParseErr)
    (p : String) (argv : List String)
    (hfile : fs CONFIG_FILE = some content)
    (hparse : parseConfig content = Except.error e) :
    get_version fs p = Except.error (PyErr.parse e) ∧
    runMain fs argv = { stdout := "", exitCode := 1 } := by
  have hg : ∀ q : String, get_version fs q = Except.error (PyErr.parse e) := by
    intro q
    simp [get_version, configRead, hfile, hparse]
  refine ⟨hg p, ?_⟩
  simp [runMain, hg]

/-- C8 witness: a manifest with a delimiter-free line inside a section. -/
theorem c8_parse_error_witness :
    get_version fsC8 "Cargo.toml" =
      Except.error (PyErr.parse ParseErr.parsingError) ∧
    runMain fsC8 ["get_version.py"] = { stdout := "", exitCode := 1 } :=
  c8_parse_error fsC8 "[package]\nthis line has no delimiter\n"
    ParseErr.parsingError "Cargo.toml" ["get_version.py"] rfl rfl

/-- C9: the program is deterministic — two runs on the same filesystem
state and argument list produce the same standard output and the same
exit status. -/
theorem c9_deterministic (fs : FS) (argv : List String) (r1 r2 : RunResult)
    (h1 : r1 = runMain fs argv) (h2 : r2 = runMain fs argv) :
    r1.stdout = r2.stdout ∧ r1.exitCode = r2.exitCode := by
  subst h1; subst h2; exact ⟨rfl, rfl⟩

/-- C9 witness: two runs on the quoted `1.0.0` manifest. -/
theorem c9_deterministic_witness :
    (runMain fsQuoted ["get_version.py"]).stdout =
      (runMain fsQuoted ["get_version.py"]).stdout ∧
    (runMain fsQuoted ["get_version.py"]).exitCode =
      (runMain fsQuoted ["get_version.py"]).exitCode :=
  c9_deterministic fsQuoted ["get_version.py"]
    (runMain fsQuoted ["get_version.py"])
    (runMain fsQuoted ["get_version.py"]) rfl rfl

/-- C10: when the raw version value has length 0 or 1, the slicing step
still succeeds and yields the empty string, so the program prints an
empty line and exits 0. -/
theorem c10_short_value (fs : FS) (argv : List String) (v : String)
    (h : get_version fs CONFIG_FILE = Except.ok v)
    (hlen : v.length ≤ 1) :
    stripFirstLast v = "" ∧
    runMain fs argv = { stdout := "\n", exitCode := 0 } := by
  have hdata : (v.data.drop 1).dropLast = [] := by
    cases hv : v.data with
    | nil => simp
    | cons c rest =>
      have hr : rest.length = 0 := by
        have hl : v.data.length ≤ 1 := hlen
        rw [hv] at hl
        simpa using hl
      rw [List.length_eq_zero] at hr
      subst hr
      simp
  have hstrip : stripFirstLast v = "" := by
    unfold stripFirstLast
    rw [hdata]
  have hg : ∀ q : String, get_version fs q = Except.ok v := fun _ => h
  refine ⟨hstrip, ?_⟩
  have hrun : runMain fs argv =
      { stdout := stripFirstLast v ++ "\n", exitCode := 0 } := by
    simp [runMain, hg]
  rw [hrun, hstrip]
  rfl

/-- C10 witness: a manifest whose `version` key has an empty raw value. -/
theorem c10_short_value_witness :
    stripFirstLast "" = "" ∧
    runMain fsC10 ["get_version.py"] = { stdout := "\n", exitCode := 0 } :=
  c10_short_value fsC10 ["get_version.py"] "" rfl (by decide)
